import Mathlib

set_option maxRecDepth 10000
set_option maxHeartbeats 2000000

/-!
Verification development for the `cafe-app-ai` restaurant ordering platform.

The definitions below are a shallow embedding of the tRPC routers
(`src/lib/trpc/routers/order.ts`, `src/lib/trpc/routers/restaurant.ts`,
the AI router, and the middleware in `src/lib/trpc/init.ts`) together with
the Drizzle data model (`src/db/schema/restaurant.ts`).

Modelling conventions:
- The relational storage collaborator is modelled as an explicit `Db` value
  holding the table rows; `findFirst where eq(col, x)` becomes `List.find?`.
- Row ordering clauses (`orderBy`) are not modelled: no claim concerns them.
- `TRPCError` is modelled by its `code` tag; messages carry no semantic load
  for the claims and are omitted.
- JavaScript numbers are IEEE-754 binary64.  They are embedded as exact
  rationals together with an executable round-to-nearest-even operation
  `f64round`; `+` and `*` on JS numbers become `fadd` / `fmul`.  Overflow,
  subnormals and signed zero never arise at the magnitudes involved and are
  not modelled.
- Nondeterministic externals (`nanoid()`, `Date.now()`, `Math.random()`, the
  generative-AI collaborator, and insert failures of the storage collaborator)
  are passed in as parameters.
-/

namespace CafeApp

/-- TRPC error code tags used by the routers (`TRPCError.code`). -/
inductive ErrorCode where
  | NOT_FOUND
  | BAD_REQUEST
  | FORBIDDEN
  | UNAUTHORIZED
  | CONFLICT
  | INTERNAL_SERVER_ERROR
deriving DecidableEq, Repr

/-- Authenticated user carried in the session (better-auth).  The `role`
attribute is read via `(ctx.session.user as any).role` and may be absent,
hence `Option String`. -/
structure User where
  id : String
  name : String
  email : String
  role : Option String
deriving DecidableEq, Repr

/-- Session object: `ctx.session.user` may be null. -/
structure Session where
  user : Option User
deriving DecidableEq, Repr

/-- The `isAuthed` middleware from `src/lib/trpc/init.ts`:
`if (!ctx.session || !ctx.session.user) throw UNAUTHORIZED`. -/
def authGate (sess : Option Session) : Except ErrorCode User :=
  match sess with
  | none => .error .UNAUTHORIZED
  | some s =>
    match s.user with
    | none => .error .UNAUTHORIZED
    | some u => .ok u

/-- The `ownerProcedure` middleware chain `use(isAuthed).use(isOwner)`:
`isAuthed` runs first, then `isOwner` re-checks the session and requires
`role === 'OWNER'`, throwing FORBIDDEN otherwise. -/
def ownerGate (sess : Option Session) : Except ErrorCode User :=
  match authGate sess with
  | .error e => .error e
  | .ok _ =>
    match authGate sess with
    | .error e => .error e
    | .ok u => if u.role = some "OWNER" then .ok u else .error .FORBIDDEN

/-- An owner-only procedure: the `ownerGate` middleware runs before the
handler body, so the handler (and hence any entity lookup it performs) is
reached only when the gate passes. -/
def runOwnerProcedure {α : Type} (sess : Option Session) (handler : User → Except ErrorCode α) :
    Except ErrorCode α :=
  match ownerGate sess with
  | .error e => .error e
  | .ok u => handler u

/-! ### IEEE-754 binary64 value model

JavaScript `Number` arithmetic.  A double is represented by the exact
rational it denotes; `f64round` is round-to-nearest, ties-to-even at 53
significant bits, defined for the normal range (ample for all values the
routers compute). -/

/-- Fuel-bounded base-2 logarithm: for `1 ≤ n < 2 ^ fuel`,
`nlog2 fuel n = ⌊log₂ n⌋`. -/
def nlog2 : Nat → Nat → Nat
  | 0, _ => 0
  | fuel + 1, n => if n ≤ 1 then 0 else nlog2 fuel (n / 2) + 1

/-- Whether `2 ^ e ≤ x`, for a positive rational `x`. -/
def pow2LE (e : ℤ) (x : ℚ) : Bool :=
  if 0 ≤ e then decide ((2 ^ e.toNat * x.den : ℤ) ≤ x.num)
  else decide ((x.den : ℤ) ≤ 2 ^ (-e).toNat * x.num)

/-- Floor of the base-2 logarithm of a positive rational. -/
def qlog2 (x : ℚ) : ℤ :=
  let a : ℤ := nlog2 4096 x.num.natAbs
  let b : ℤ := nlog2 4096 x.den
  if pow2LE (a - b) x then a - b else a - b - 1

/-- Exact rational addition, written with `mkRat` so that it evaluates by
plain reduction; `qadd_eq_add` below identifies it with `+` on ℚ. -/
def qadd (a b : ℚ) : ℚ := mkRat (a.num * b.den + b.num * a.den) (a.den * b.den)

/-- Exact rational multiplication, written with `mkRat`; `qmul_eq_mul`
below identifies it with `*` on ℚ. -/
def qmul (a b : ℚ) : ℚ := mkRat (a.num * b.num) (a.den * b.den)

/-- Round the fraction n / d (d positive) to the nearest integer, ties to
even. -/
def rneDiv (n d : ℤ) : ℤ :=
  let f := Int.fdiv n d
  let r2 := 2 * (n - f * d)
  if r2 < d then f
  else if d < r2 then f + 1
  else if f % 2 = 0 then f else f + 1

/-- Round a positive rational to 53 significant binary digits
(round-to-nearest, ties-to-even). -/
def f64roundPos (x : ℚ) : ℚ :=
  let e := qlog2 x
  if e ≤ 52 then
    let s : Nat := (52 - e).toNat
    mkRat (rneDiv (x.num * 2 ^ s) x.den) (2 ^ s)
  else
    let s : Nat := (e - 52).toNat
    mkRat (rneDiv x.num ((x.den : ℤ) * 2 ^ s) * 2 ^ s) 1

/-- The binary64 value nearest to the rational `x` (normal range). -/
def f64round (x : ℚ) : ℚ :=
  if x.num = 0 then 0
  else if x.num < 0 then - f64roundPos (-x)
  else f64roundPos x

/-- JavaScript `+` on numbers: exact sum, rounded to binary64. -/
def fadd (x y : ℚ) : ℚ := f64round (qadd x y)

/-- JavaScript `*` on numbers: exact product, rounded to binary64. -/
def fmul (x y : ℚ) : ℚ := f64round (qmul x y)

/-! ### Data model (`src/db/schema/restaurant.ts`)

`decimal(10,2)` columns hold exact decimal values and are embedded as `ℚ`;
nullable text columns as `Option String`.  `createdAt`/`updatedAt` defaults
and `estimatedDeliveryTime` are not read by any claim and are left out,
except for the `updatedAt` / `actualDeliveryTime` writes that
`updateStatus` / `cancelOrder` perform (time modelled as `Nat`). -/

/-- Row of the `restaurants` table. -/
structure Restaurant where
  id : String
  name : String
  description : Option String
  slug : String
  location : Option String
  phone : Option String
  email : Option String
  logo : Option String
  coverImage : Option String
  isActive : Bool
  ownerId : String
deriving DecidableEq, Repr

/-- Row of the `menu_categories` table. -/
structure MenuCategory where
  id : String
  name : String
  description : Option String
  displayOrder : ℚ
  restaurantId : String
deriving DecidableEq, Repr

/-- Row of the `menu_items` table. -/
structure MenuItem where
  id : String
  name : String
  description : Option String
  price : ℚ
  image : Option String
  isAvailable : Bool
  displayOrder : ℚ
  ingredients : Option String
  preparationTime : Option String
  categoryId : String
  restaurantId : String
deriving DecidableEq, Repr

/-- Order status values (`z.enum` in the order router / `status` column). -/
inductive OrderStatus where
  | PENDING
  | PREPARING
  | READY
  | COMPLETED
  | CANCELLED
deriving DecidableEq, Repr

/-- Row of the `orders` table (fields the order router reads or writes). -/
structure Order where
  id : String
  orderNumber : String
  totalAmount : ℚ
  status : OrderStatus
  customerName : String
  customerEmail : String
  customerPhone : Option String
  notes : Option String
  restaurantId : String
  customerId : String
  actualDeliveryTime : Option Nat
  updatedAt : Nat
deriving DecidableEq, Repr

/-- Row of the `order_items` table. -/
structure OrderItem where
  id : String
  quantity : ℚ
  unitPrice : ℚ
  totalPrice : ℚ
  specialInstructions : Option String
  orderId : String
  menuItemId : String
deriving DecidableEq, Repr

/-- The storage collaborator's state: the table rows. -/
structure Db where
  restaurants : List Restaurant
  menuCategories : List MenuCategory
  menuItems : List MenuItem
  orders : List Order
  orderItems : List OrderItem
deriving DecidableEq, Repr

/-! ### Order router (`src/lib/trpc/routers/order.ts`) -/

/-- One entry of `placeOrder`'s `items` input array. -/
structure CartItem where
  menuItemId : String
  quantity : ℚ
  specialInstructions : Option String
deriving DecidableEq, Repr

/-- The `placeOrder` input object (already zod-validated). -/
structure PlaceOrderInput where
  restaurantId : String
  items : List CartItem
  customerName : Option String
  customerEmail : Option String
  customerPhone : Option String
  notes : Option String
deriving DecidableEq, Repr

/-- JavaScript `a || b` for an optional string `a`: both `undefined` and the
empty string are falsy. -/
def jsOrStr (a : Option String) (b : String) : String :=
  match a with
  | none => b
  | some s => if s = "" then b else s

/-- First loop of `placeOrder` (lines 45-70): check every cart item exists,
is available, and belongs to the target restaurant, failing at the first
offender. -/
def checkCartItems (db : Db) (rid : String) : List CartItem → Except ErrorCode Unit
  | [] => .ok ()
  | c :: rest =>
    match db.menuItems.find? (fun m => m.id == c.menuItemId) with
    | none => .error .NOT_FOUND
    | some m =>
      if !m.isAvailable then .error .BAD_REQUEST
      else if m.restaurantId ≠ rid then .error .BAD_REQUEST
      else checkCartItems db rid rest

/-- Second loop of `placeOrder` (lines 76-95): re-fetch each menu item,
snapshot `unitPrice = Number(menuItem.price)`, compute
`totalPrice = unitPrice * quantity` and accumulate
`totalAmount += totalPrice` — all in JS number (binary64) arithmetic.
A missing item here would crash the non-null assertion `menuItem!` outside
the try block, surfacing as INTERNAL_SERVER_ERROR. -/
def computeLines (db : Db) (ids : Nat → String) :
    List CartItem → Nat → ℚ → Except ErrorCode (ℚ × List OrderItem)
  | [], _, acc => .ok (acc, [])
  | c :: rest, i, acc =>
    match db.menuItems.find? (fun m => m.id == c.menuItemId) with
    | none => .error .INTERNAL_SERVER_ERROR
    | some m =>
      let unitPrice := f64round m.price
      let totalPrice := fmul unitPrice c.quantity
      match computeLines db ids rest (i + 1) (fadd acc totalPrice) with
      | .error e => .error e
      | .ok (tot, rows) =>
        .ok (tot,
          { id := ids i, quantity := c.quantity, unitPrice := unitPrice,
            totalPrice := totalPrice, specialInstructions := c.specialInstructions,
            orderId := "", menuItemId := c.menuItemId } :: rows)

/-- Validation and computation phase of `placeOrder` (lines 25-112): the
order header and item rows it hands to the storage collaborator, or the
typed error it throws first.  `oid`, `onum` and `ids` stand for the
externally generated `nanoid()` order id, order number and item ids; the
item rows carry the header id they are inserted with (line 126). -/
def placeOrderCompute (db : Db) (sess : Option Session) (input : PlaceOrderInput)
    (oid onum : String) (ids : Nat → String) (now : Nat) :
    Except ErrorCode (Order × List OrderItem) :=
  match authGate sess with
  | .error e => .error e
  | .ok user =>
    match db.restaurants.find? (fun r => r.id == input.restaurantId) with
    | none => .error .NOT_FOUND
    | some r =>
      if !r.isActive then .error .NOT_FOUND
      else
        match checkCartItems db input.restaurantId input.items with
        | .error e => .error e
        | .ok _ =>
          match computeLines db ids input.items 0 0 with
          | .error e => .error e
          | .ok (totalAmount, rows) =>
            .ok
              ({ id := oid, orderNumber := onum, totalAmount := totalAmount,
                 status := .PENDING,
                 customerName := jsOrStr input.customerName user.name,
                 customerEmail := jsOrStr input.customerEmail user.email,
                 customerPhone := input.customerPhone,
                 notes := input.notes,
                 restaurantId := input.restaurantId,
                 customerId := user.id,
                 actualDeliveryTime := none, updatedAt := now },
               rows.map (fun row => { row with orderId := oid }))

/-- The item-insert loop inside the try block (lines 123-128): one insert
statement per row, each of which the storage collaborator may fail.
`failAt = some i` makes the `i`-th insert of the call fail (the header
insert is number 0, item inserts are numbered from 1).  Rows inserted
before the failure stay committed: there is no enclosing transaction. -/
def insertOrderItems (db : Db) (o : Order) :
    List OrderItem → Nat → Option Nat → Db × Except ErrorCode Order
  | [], _, _ => (db, .ok o)
  | row :: rest, i, failAt =>
    if failAt = some i then (db, .error .INTERNAL_SERVER_ERROR)
    else insertOrderItems { db with orderItems := db.orderItems ++ [row] } o rest (i + 1) failAt

/-- Full `placeOrder` including persistence (lines 114-136): header insert,
then item inserts, with any storage failure caught and re-thrown as
INTERNAL_SERVER_ERROR — and no rollback of the rows already inserted. -/
def placeOrder (db : Db) (sess : Option Session) (input : PlaceOrderInput)
    (oid onum : String) (ids : Nat → String) (now : Nat) (failAt : Option Nat) :
    Db × Except ErrorCode Order :=
  match placeOrderCompute db sess input oid onum ids now with
  | .error e => (db, .error e)
  | .ok (o, rows) =>
    if failAt = some 0 then (db, .error .INTERNAL_SERVER_ERROR)
    else insertOrderItems { db with orders := db.orders ++ [o] } o rows 1 failAt

/-- The `validTransitions` table of `updateStatus` (lines 326-332). -/
def validTransitions : OrderStatus → List OrderStatus
  | .PENDING => [.PREPARING, .CANCELLED]
  | .PREPARING => [.READY, .CANCELLED]
  | .READY => [.COMPLETED, .CANCELLED]
  | .COMPLETED => []
  | .CANCELLED => []

/-- `order.updateStatus` (lines 294-353): owner-only; loads the order with
its restaurant, checks ownership, validates the transition, then updates
the row (stamping `actualDeliveryTime` when completing).  Returns the
possibly-updated database and the result. -/
def updateStatus (db : Db) (sess : Option Session) (inputId : String)
    (newStatus : OrderStatus) (now : Nat) : Db × Except ErrorCode Order :=
  match ownerGate sess with
  | .error e => (db, .error e)
  | .ok u =>
    match db.orders.find? (fun o => o.id == inputId) with
    | none => (db, .error .NOT_FOUND)
    | some o =>
      match db.restaurants.find? (fun r => r.id == o.restaurantId) with
      | none => (db, .error .INTERNAL_SERVER_ERROR)
      | some r =>
        if r.ownerId ≠ u.id then (db, .error .FORBIDDEN)
        else if !(validTransitions o.status).contains newStatus then
          (db, .error .BAD_REQUEST)
        else
          let upd := fun (x : Order) =>
            { x with
                status := newStatus,
                updatedAt := now,
                actualDeliveryTime :=
                  if newStatus = .COMPLETED then some now else x.actualDeliveryTime }
          ({ db with orders := db.orders.map (fun x => if x.id == inputId then upd x else x) },
           .ok (upd o))

/-- The notes value `cancelOrder` writes (lines 392-394); JS truthiness of
`input.reason` makes the empty string fall back too. -/
def cancelNotes (reason : Option String) : String :=
  match reason with
  | some rsn => if rsn = "" then "Cancelled by customer" else "Cancelled: " ++ rsn
  | none => "Cancelled by customer"

/-- `order.cancelOrder` (lines 356-401): protected; only the order's
customer may cancel, only while the status is PENDING; sets the status to
CANCELLED and writes the reason note. -/
def cancelOrder (db : Db) (sess : Option Session) (inputId : String)
    (reason : Option String) (now : Nat) : Db × Except ErrorCode Order :=
  match authGate sess with
  | .error e => (db, .error e)
  | .ok u =>
    match db.orders.find? (fun o => o.id == inputId) with
    | none => (db, .error .NOT_FOUND)
    | some o =>
      if o.customerId ≠ u.id then (db, .error .FORBIDDEN)
      else if o.status ≠ .PENDING then (db, .error .BAD_REQUEST)
      else
        let upd := fun (x : Order) =>
          { x with status := .CANCELLED, notes := some (cancelNotes reason), updatedAt := now }
        ({ db with orders := db.orders.map (fun x => if x.id == inputId then upd x else x) },
         .ok (upd o))

/-! ### Restaurant router (`src/lib/trpc/routers/restaurant.ts`) -/

/-- Relation loading `with: menuCategories` for a restaurant (row order is
not modelled). -/
def loadCategories (db : Db) (rid : String) : List MenuCategory :=
  db.menuCategories.filter (fun c => c.restaurantId == rid)

/-- Relation loading `with: menuItems` for a category. -/
def loadItems (db : Db) (cid : String) : List MenuItem :=
  db.menuItems.filter (fun m => m.categoryId == cid)

/-- `restaurant.getBySlug` (lines 10-36): public; finds the restaurant by
slug — with no condition on `isActive` — and nests its categories with
only the available menu items. -/
def getBySlug (db : Db) (slug : String) :
    Except ErrorCode (Restaurant × List (MenuCategory × List MenuItem)) :=
  match db.restaurants.find? (fun r => r.slug == slug) with
  | none => .error .NOT_FOUND
  | some r =>
    .ok (r, (loadCategories db r.id).map
      (fun c => (c, (loadItems db c.id).filter (fun m => m.isAvailable))))

/-- The public-safe column projection of `getAllPublic` (lines 42-50). -/
structure PublicRestaurantRow where
  id : String
  name : String
  description : Option String
  slug : String
  location : Option String
  logo : Option String
  coverImage : Option String
deriving DecidableEq, Repr

/-- Column selection applied by `getAllPublic`. -/
def publicProjection (r : Restaurant) : PublicRestaurantRow :=
  { id := r.id, name := r.name, description := r.description, slug := r.slug,
    location := r.location, logo := r.logo, coverImage := r.coverImage }

/-- `restaurant.getAllPublic` (lines 38-53): public; active restaurants
only, projected to public-safe columns. -/
def getAllPublic (db : Db) : List PublicRestaurantRow :=
  (db.restaurants.filter (fun r => r.isActive)).map publicProjection

/-- Menu item projection of the non-owner branch of `getById`
(lines 97-104). -/
structure RedactedMenuItem where
  id : String
  name : String
  description : Option String
  price : ℚ
  image : Option String
  displayOrder : ℚ
deriving DecidableEq, Repr

/-- Category projection of the non-owner branch of `getById`
(lines 92-105). -/
structure RedactedCategory where
  id : String
  name : String
  description : Option String
  displayOrder : ℚ
  menuItems : List RedactedMenuItem
deriving DecidableEq, Repr

/-- Restaurant projection of the non-owner branch of `getById`
(lines 83-106). -/
structure RedactedRestaurant where
  id : String
  name : String
  description : Option String
  slug : String
  location : Option String
  logo : Option String
  coverImage : Option String
  isActive : Bool
  menuCategories : List RedactedCategory
deriving DecidableEq, Repr

/-- The keys of the object literal returned to non-owners by `getById`
(lines 83-106), in source order. -/
def redactedRestaurantFields : List String :=
  ["id", "name", "description", "slug", "location", "logo", "coverImage",
   "isActive", "menuCategories"]

/-- Projection of one menu item in the non-owner branch. -/
def redactItem (it : MenuItem) : RedactedMenuItem :=
  { id := it.id, name := it.name, description := it.description,
    price := it.price, image := it.image, displayOrder := it.displayOrder }

/-- Projection of one category in the non-owner branch: items are first
filtered to `isAvailable`, then projected. -/
def redactCategory (db : Db) (c : MenuCategory) : RedactedCategory :=
  { id := c.id, name := c.name, description := c.description,
    displayOrder := c.displayOrder,
    menuItems := ((loadItems db c.id).filter (fun it => it.isAvailable)).map redactItem }

/-- Result payload of `restaurant.getById`: the full row with its full
menu for the owner, the redacted projection for everyone else. -/
inductive RestaurantPayload where
  | full (r : Restaurant) (menu : List (MenuCategory × List MenuItem))
  | redacted (v : RedactedRestaurant)
deriving DecidableEq, Repr

/-- `restaurant.getById` (lines 56-110): protected; loads the restaurant
with its whole menu, then redacts unless the caller is the owner. -/
def restaurantGetById (db : Db) (sess : Option Session) (rid : String) :
    Except ErrorCode RestaurantPayload :=
  match authGate sess with
  | .error e => .error e
  | .ok u =>
    match db.restaurants.find? (fun r => r.id == rid) with
    | none => .error .NOT_FOUND
    | some r =>
      if r.ownerId ≠ u.id then
        .ok (.redacted
          { id := r.id, name := r.name, description := r.description,
            slug := r.slug, location := r.location, logo := r.logo,
            coverImage := r.coverImage, isActive := r.isActive,
            menuCategories := (loadCategories db r.id).map (redactCategory db) })
      else
        .ok (.full r ((loadCategories db r.id).map (fun c => (c, loadItems db c.id))))

/-! ### AI router (`aiRouter.chat`) -/

/-- The reply object of `ai.chat`: the success branch carries no
`isFallback` key (`none`), the fallback branch sets it to `true`. -/
structure ChatReply where
  response : String
  restaurantName : String
  isFallback : Option Bool
deriving DecidableEq, Repr

/-- The canned fallback text of `ai.chat` (line 509), a function of the
restaurant name only. -/
def fallbackResponse (name : String) : String :=
  "I\x27m sorry, I\x27m having trouble connecting right now. I\x27m here to help you with questions about "
    ++ name
    ++ "\x27s menu. Feel free to ask me about any menu items, ingredients, or I can help you make recommendations! For placing orders, please use the ordering system."

/-- `ai.chat` (lines 413-514): protected; loads the restaurant (NOT_FOUND
if missing, BAD_REQUEST if inactive), delegates generation to the external
collaborator — whose outcome is the `genResult` parameter — and on its
failure returns the canned fallback marked `isFallback` instead of
throwing.  Prompt construction is not modelled: no claim concerns it. -/
def aiChat (db : Db) (sess : Option Session) (restaurantId : String)
    (genResult : Except String String) : Except ErrorCode ChatReply :=
  match authGate sess with
  | .error e => .error e
  | .ok _ =>
    match db.restaurants.find? (fun r => r.id == restaurantId) with
    | none => .error .NOT_FOUND
    | some r =>
      if !r.isActive then .error .BAD_REQUEST
      else
        match genResult with
        | .ok text => .ok { response := text, restaurantName := r.name, isFallback := none }
        | .error _ =>
          .ok { response := fallbackResponse r.name, restaurantName := r.name,
                isFallback := some true }

/-! ### Helper definitions for the statements -/

/-- Equality of procedure outcomes is decidable. -/
instance {ε α : Type} [DecidableEq ε] [DecidableEq α] : DecidableEq (Except ε α) := by
  intro a b
  cases a <;> cases b
  case error.error e f => exact decidable_of_iff (e = f) (by simp)
  case ok.ok x y => exact decidable_of_iff (x = y) (by simp)
  case error.ok e x => exact isFalse (by simp)
  case ok.error x e => exact isFalse (by simp)

/-- Whether a procedure call returned rather than threw. -/
def isSuccess {α : Type} : Except ErrorCode α → Bool
  | .ok _ => true
  | .error _ => false

/-- The status transition table exactly as the specification states it
(spec section 4.3). -/
def claimTransitionTable : List (OrderStatus × OrderStatus) :=
  [(.PENDING, .PREPARING), (.PENDING, .CANCELLED),
   (.PREPARING, .READY), (.PREPARING, .CANCELLED),
   (.READY, .COMPLETED), (.READY, .CANCELLED)]

/-- Whether one cart item passes all three per-item checks of
`placeOrder`'s validation loop. -/
def itemOk (db : Db) (rid : String) (c : CartItem) : Bool :=
  match db.menuItems.find? (fun m => m.id == c.menuItemId) with
  | none => false
  | some m => m.isAvailable && decide (m.restaurantId = rid)

/-- The `totalAmount` of a successful `placeOrder` computation. -/
def orderTotalOf : Except ErrorCode (Order × List OrderItem) → Option ℚ
  | .ok (o, _) => some o.totalAmount
  | .error _ => none

/-- The accumulated total of a successful `computeLines` run. -/
def totalOf : Except ErrorCode (ℚ × List OrderItem) → Option ℚ
  | .ok (t, _) => some t
  | .error _ => none

/-- One step of `placeOrder`'s `totalAmount` accumulation, as a fold
function over the cart. -/
def itemStep (db : Db) (acc : ℚ) (c : CartItem) : ℚ :=
  match db.menuItems.find? (fun m => m.id == c.menuItemId) with
  | none => acc
  | some m => fadd acc (fmul (f64round m.price) c.quantity)

/-- The item rows' `totalPrice` snapshots of a successful `placeOrder`
computation. -/
def lineTotalsOf : Except ErrorCode (Order × List OrderItem) → Option (List ℚ)
  | .ok (_, rows) => some (rows.map (fun row => row.totalPrice))
  | .error _ => none

/-- The binary64 double nearest 0.1 (one line total of the 0.10 cart). -/
def d10 : ℚ := mkRat 3602879701896397 36028797018963968

/-- The binary64 fold of three copies of `d10`: 0.30000000000000004…,
which is not their exact rational sum. -/
def t3 : ℚ := mkRat 1351079888211149 4503599627370496

/-! ### Concrete rows used by the closed theorems -/

/-- An active restaurant owned by `owner1`. -/
def rest1 : Restaurant :=
  { id := "r1", name := "Cafe One", description := none, slug := "cafe1",
    location := none, phone := some "555-0100", email := some "owner@cafe1.example",
    logo := none, coverImage := none, isActive := true, ownerId := "owner1" }

/-- An available menu item priced 9.99 at restaurant `r1`. -/
def item1 : MenuItem :=
  { id := "m1", name := "Burger", description := none, price := mkRat 999 100,
    image := none, isAvailable := true, displayOrder := 0, ingredients := none,
    preparationTime := none, categoryId := "c1", restaurantId := "r1" }

/-- An available menu item priced 0.01 at restaurant `r1`. -/
def centItem : MenuItem :=
  { id := "p1", name := "Penny Candy", description := none, price := mkRat 1 100,
    image := none, isAvailable := true, displayOrder := 0, ingredients := none,
    preparationTime := none, categoryId := "c1", restaurantId := "r1" }

/-- An available menu item priced 0.10 at restaurant `r1`. -/
def dimeItem : MenuItem :=
  { id := "d1", name := "Dime Drop", description := none, price := mkRat 1 10,
    image := none, isAvailable := true, displayOrder := 0, ingredients := none,
    preparationTime := none, categoryId := "c1", restaurantId := "r1" }

/-- A session for customer `cust1`. -/
def sess1 : Option Session :=
  some { user := some { id := "cust1", name := "Cora", email := "cora@example.com",
                        role := none } }

/-- Database for the persistence-failure scenario: restaurant `r1` with
menu item `m1`, no orders yet. -/
def db1 : Db :=
  { restaurants := [rest1], menuCategories := [], menuItems := [item1],
    orders := [], orderItems := [] }

/-- A one-item cart for menu item `m1`. -/
def input1 : PlaceOrderInput :=
  { restaurantId := "r1",
    items := [{ menuItemId := "m1", quantity := 1, specialInstructions := none }],
    customerName := none, customerEmail := none, customerPhone := none, notes := none }

/-- Database holding the 0.01-priced item. -/
def db2 : Db :=
  { restaurants := [rest1], menuCategories := [], menuItems := [centItem],
    orders := [], orderItems := [] }

/-- One cart entry for the 0.01 item, quantity 1. -/
def centCart : CartItem := { menuItemId := "p1", quantity := 1, specialInstructions := none }

/-- A cart of 1000 entries of the 0.01 item (the spec's own example). -/
def input1000 : PlaceOrderInput :=
  { restaurantId := "r1", items := List.replicate 1000 centCart,
    customerName := none, customerEmail := none, customerPhone := none, notes := none }

/-- Database holding the 0.10-priced item. -/
def db5 : Db :=
  { restaurants := [rest1], menuCategories := [], menuItems := [dimeItem],
    orders := [], orderItems := [] }

/-- A cart of three entries of the 0.10 item, quantity 1 each. -/
def input3 : PlaceOrderInput :=
  { restaurantId := "r1",
    items := [{ menuItemId := "d1", quantity := 1, specialInstructions := none },
              { menuItemId := "d1", quantity := 1, specialInstructions := none },
              { menuItemId := "d1", quantity := 1, specialInstructions := none }],
    customerName := none, customerEmail := none, customerPhone := none, notes := none }

/-- A menu category of restaurant `r1`. -/
def cat1 : MenuCategory :=
  { id := "c1", name := "Mains", description := none, displayOrder := 0,
    restaurantId := "r1" }

/-- An unavailable menu item in category `c1`. -/
def item86 : MenuItem :=
  { id := "m86", name := "Yesterday Special", description := none, price := mkRat 5 1,
    image := none, isAvailable := false, displayOrder := 1, ingredients := none,
    preparationTime := none, categoryId := "c1", restaurantId := "r1" }

/-- Database with restaurant `r1`, category `c1`, one available and one
unavailable item. -/
def dbMenu : Db :=
  { restaurants := [rest1], menuCategories := [cat1], menuItems := [item1, item86],
    orders := [], orderItems := [] }

/-- An available menu item that belongs to a different restaurant. -/
def itemFar : MenuItem :=
  { id := "mfar", name := "Foreign Dish", description := none, price := mkRat 7 1,
    image := none, isAvailable := true, displayOrder := 0, ingredients := none,
    preparationTime := none, categoryId := "c9", restaurantId := "r9" }

/-- Database for the validation-failure scenarios: restaurant `r1` with an
available item, an unavailable item, and a foreign restaurant's item. -/
def dbValidation : Db :=
  { restaurants := [rest1], menuCategories := [cat1],
    menuItems := [item1, item86, itemFar], orders := [], orderItems := [] }

/-- A pending order of customer `cust1` at restaurant `r1`. -/
def orderPending : Order :=
  { id := "o1", orderNumber := "ORD-1", totalAmount := mkRat 999 100,
    status := .PENDING, customerName := "Cora", customerEmail := "cora@example.com",
    customerPhone := none, notes := none, restaurantId := "r1",
    customerId := "cust1", actualDeliveryTime := none, updatedAt := 0 }

/-- The same order already in PREPARING. -/
def orderPreparing : Order := { orderPending with status := .PREPARING }

/-- Database containing the pending order. -/
def dbOrderPending : Db :=
  { restaurants := [rest1], menuCategories := [cat1], menuItems := [item1],
    orders := [orderPending], orderItems := [] }

/-- Database containing the preparing order. -/
def dbOrderPreparing : Db :=
  { restaurants := [rest1], menuCategories := [cat1], menuItems := [item1],
    orders := [orderPreparing], orderItems := [] }

/-- A session for a different customer. -/
def sessOther : Option Session :=
  some { user := some { id := "cust2", name := "Nia", email := "nia@example.com",
                        role := none } }

/-- A session for the owner of restaurant `r1`. -/
def sessOwner : Option Session :=
  some { user := some { id := "owner1", name := "Ola", email := "ola@example.com",
                        role := some "OWNER" } }

/-- The restaurant `r1` with its active flag turned off. -/
def restInactive : Restaurant := { rest1 with isActive := false }

/-- Database whose only restaurant is inactive (menu item `m1` still
points at it). -/
def dbInactive : Db :=
  { restaurants := [restInactive], menuCategories := [], menuItems := [item1],
    orders := [], orderItems := [] }

/-- The binary64 line total of one 0.01 cart entry: the double nearest
0.01 (price parsed by `Number`, multiplied by quantity 1). -/
def centLine : ℚ := mkRat 5764607523034235 576460752303423488

/-- Binary64 partial sums of k✕100 additions of `centLine`
(the values JavaScript's accumulation loop reaches every 100 items). -/
def u1 : ℚ := mkRat 4503599627370499 4503599627370496

def u2 : ℚ := mkRat 4503599627370499 2251799813685248

def u3 : ℚ := mkRat 6755399441055699 2251799813685248

def u4 : ℚ := mkRat 9007199254740899 2251799813685248

def u5 : ℚ := mkRat 2814749767106525 562949953421312

def u6 : ℚ := mkRat 3377699720527825 562949953421312

def u7 : ℚ := mkRat 3940649673949125 562949953421312

def u8 : ℚ := mkRat 4503599627370425 562949953421312

def u9 : ℚ := mkRat 5066549580791725 562949953421312

/-- The binary64 total JavaScript computes for 1000 items of 0.01:
9.99999999999983…, not 10. -/
def v10 : ℚ := mkRat 5629499534213025 562949953421312

/-! ### Theorems -/

/-- The `mkRat` formulation of addition used by the float model agrees
with rational addition. -/
theorem qadd_eq_add (a b : ℚ) : qadd a b = a + b := (Rat.add_def' a b).symm

/-- The `mkRat` formulation of multiplication used by the float model
agrees with rational multiplication. -/
theorem qmul_eq_mul (a b : ℚ) : qmul a b = a * b := by
  rw [Rat.mul_def a b, Rat.normalize_eq_mkRat]
  rfl

/-- `fadd` is binary64 rounding of the exact rational sum. -/
theorem fadd_eq (x y : ℚ) : fadd x y = f64round (x + y) := by
  unfold fadd
  rw [qadd_eq_add]

/-- `fmul` is binary64 rounding of the exact rational product. -/
theorem fmul_eq (x y : ℚ) : fmul x y = f64round (x * y) := by
  unfold fmul
  rw [qmul_eq_mul]

/-- C7: on every owner-only procedure, a caller with no authenticated
identity fails UNAUTHORIZED and an authenticated caller whose role is not
"OWNER" fails FORBIDDEN — in both cases the handler (quantified over all
handlers and result types, hence any entity lookup) is never reached, so
the outcome is the same whatever the database holds; instantiated on the
owner-only `updateStatus` for arbitrary databases. -/
theorem ownerProcedures_gate_before_lookup {α : Type}
    (sess : Option Session) (handler : User → Except ErrorCode α) :
    (sess = none ∨ (∃ s, sess = some s ∧ s.user = none) →
      runOwnerProcedure sess handler = .error .UNAUTHORIZED)
    ∧ (∀ s u, sess = some s → s.user = some u → u.role ≠ some "OWNER" →
        runOwnerProcedure sess handler = .error .FORBIDDEN)
    ∧ (∀ s u (db : Db) (oid : String) (st : OrderStatus) (now : Nat),
        sess = some s → s.user = some u → u.role ≠ some "OWNER" →
        updateStatus db sess oid st now = (db, .error .FORBIDDEN))
    ∧ (∀ (db : Db) (oid : String) (st : OrderStatus) (now : Nat),
        sess = none → updateStatus db sess oid st now = (db, .error .UNAUTHORIZED)) := by
  refine ⟨?_, ?_, ?_, ?_⟩
  · rintro (rfl | ⟨s, rfl, hu⟩)
    · rfl
    · simp [runOwnerProcedure, ownerGate, authGate, hu]
  · rintro s u rfl hu hrole
    simp [runOwnerProcedure, ownerGate, authGate, hu, hrole]
  · rintro s u db oid st now rfl hu hrole
    simp [updateStatus, ownerGate, authGate, hu, hrole]
  · rintro db oid st now rfl
    rfl

/-- C7 witness: concrete unauthenticated and non-owner calls. -/
theorem ownerProcedures_gate_witness :
    @runOwnerProcedure Nat none (fun _ => .ok 0) = .error .UNAUTHORIZED
    ∧ @runOwnerProcedure Nat sess1 (fun _ => .ok 0) = .error .FORBIDDEN
    ∧ updateStatus db1 sess1 "o1" .PREPARING 0 = (db1, .error .FORBIDDEN) := by
  refine ⟨(ownerProcedures_gate_before_lookup none _).1 (Or.inl rfl), ?_, ?_⟩
  · exact (ownerProcedures_gate_before_lookup sess1 _).2.1 _ _ rfl rfl (by decide)
  · exact (@ownerProcedures_gate_before_lookup Nat sess1 (fun _ => .ok 0)).2.2.1
      _ _ db1 "o1" .PREPARING 0 rfl rfl (by decide)

/-- C9: for a chat call on an existing, active restaurant, the call never
surfaces a failure of the text-generation collaborator: it succeeds for
every collaborator outcome, and on collaborator failure it returns the
deterministic fallback payload marked `isFallback`. -/
theorem aiChat_fallback_on_generation_failure
    (db : Db) (sess : Option Session) (s : Session) (u : User) (rid : String)
    (r : Restaurant) (err : String)
    (hs : sess = some s) (hu : s.user = some u)
    (hr : db.restaurants.find? (fun x => x.id == rid) = some r)
    (hact : r.isActive = true) :
    (∀ genResult, isSuccess (aiChat db sess rid genResult) = true)
    ∧ aiChat db sess rid (.error err) =
        .ok { response := fallbackResponse r.name, restaurantName := r.name,
              isFallback := some true } := by
  subst hs
  constructor
  · intro genResult
    cases genResult <;> simp [aiChat, authGate, hu, hr, hact, isSuccess]
  · simp [aiChat, authGate, hu, hr, hact]

/-- C9 witness: the fallback reply on a concrete active restaurant. -/
theorem aiChat_fallback_witness :
    (∀ genResult, isSuccess (aiChat db1 sess1 "r1" genResult) = true)
    ∧ aiChat db1 sess1 "r1" (.error "upstream down") =
        .ok { response := fallbackResponse rest1.name, restaurantName := rest1.name,
              isFallback := some true } :=
  aiChat_fallback_on_generation_failure db1 sess1 _ _ "r1" rest1 "upstream down"
    rfl rfl (by decide) (by decide)

/-- C10: `getBySlug` returns the restaurant (with its available menu) even
when `isActive` is false, while the public listing only ever returns
projections of active restaurants, and `placeOrder` rejects the same
inactive restaurant with NOT_FOUND. -/
theorem getBySlug_serves_inactive_restaurants (db : Db) :
    (∀ slug r, db.restaurants.find? (fun x => x.slug == slug) = some r →
      r.isActive = false →
      ∃ menu, getBySlug db slug = .ok (r, menu))
    ∧ (∀ v, v ∈ getAllPublic db →
        ∃ r, r ∈ db.restaurants ∧ r.isActive = true ∧ v = publicProjection r)
    ∧ (∀ (sess : Option Session) s u (input : PlaceOrderInput) oid onum ids now r,
        sess = some s → s.user = some u →
        db.restaurants.find? (fun x => x.id == input.restaurantId) = some r →
        r.isActive = false →
        placeOrderCompute db sess input oid onum ids now = .error .NOT_FOUND) := by
  refine ⟨?_, ?_, ?_⟩
  · intro slug r hr hact
    refine ⟨(loadCategories db r.id).map
      (fun c => (c, (loadItems db c.id).filter (fun m => m.isAvailable))), ?_⟩
    simp [getBySlug, hr]
  · intro v hv
    rcases List.mem_map.1 hv with ⟨r, hr, rfl⟩
    exact ⟨r, (List.mem_filter.1 hr).1, (List.mem_filter.1 hr).2, rfl⟩
  · rintro sess s u input oid onum ids now r rfl hu hr hact
    simp [placeOrderCompute, authGate, hu, hr, hact]

/-- C10 witness: a concrete inactive restaurant is served by `getBySlug`,
absent from the public listing, and rejected by `placeOrder`. -/
theorem getBySlug_inactive_witness :
    (∃ menu, getBySlug dbInactive "cafe1" = .ok (restInactive, menu))
    ∧ (∀ v, v ∈ getAllPublic dbInactive →
        ∃ r, r ∈ dbInactive.restaurants ∧ r.isActive = true ∧ v = publicProjection r)
    ∧ placeOrderCompute dbInactive sess1 input1 "o1" "n1" (fun _ => "i") 0 =
        .error .NOT_FOUND := by
  refine ⟨?_, ?_, ?_⟩
  · exact (getBySlug_serves_inactive_restaurants dbInactive).1 "cafe1" restInactive
      (by decide) (by decide)
  · exact (getBySlug_serves_inactive_restaurants dbInactive).2.1
  · exact (getBySlug_serves_inactive_restaurants dbInactive).2.2 sess1 _ _ input1
      "o1" "n1" (fun _ => "i") 0 restInactive rfl rfl (by decide) (by decide)

/-- C8: `restaurant.getById` for an authenticated caller who is not the
owner returns the redacted projection: its field set contains neither
`phone` nor `email`, and every menu item it shows is the projection of an
available item of the database. -/
theorem getById_redacts_for_non_owner
    (db : Db) (sess : Option Session) (s : Session) (u : User) (rid : String)
    (r : Restaurant)
    (hs : sess = some s) (hu : s.user = some u)
    (hr : db.restaurants.find? (fun x => x.id == rid) = some r)
    (hnot : u.id ≠ r.ownerId) :
    ("phone" ∉ redactedRestaurantFields ∧ "email" ∉ redactedRestaurantFields)
    ∧ ∃ v, restaurantGetById db sess rid = .ok (.redacted v)
        ∧ ∀ c ∈ v.menuCategories, ∀ it ∈ c.menuItems,
            ∃ m, m ∈ db.menuItems ∧ m.isAvailable = true ∧ it = redactItem m := by
  subst hs
  have hne : r.ownerId ≠ u.id := fun h => hnot h.symm
  refine ⟨⟨by decide, by decide⟩,
    { id := r.id, name := r.name, description := r.description, slug := r.slug,
      location := r.location, logo := r.logo, coverImage := r.coverImage,
      isActive := r.isActive,
      menuCategories := (loadCategories db r.id).map (redactCategory db) }, ?_, ?_⟩
  · simp [restaurantGetById, authGate, hu, hr, hne]
  · rintro c hc it hit
    rcases List.mem_map.1 hc with ⟨c0, hc0, rfl⟩
    have hit2 : ∃ a, (a ∈ loadItems db c0.id ∧ a.isAvailable = true) ∧ redactItem a = it := by
      simpa [redactCategory] using hit
    rcases hit2 with ⟨m, ⟨hm1, hm2⟩, rfl⟩
    have hmem : m ∈ db.menuItems ∧ m.categoryId = c0.id := by simpa [loadItems] using hm1
    exact ⟨m, hmem.1, hm2, rfl⟩

/-- C8 witness: a non-owner caller on a concrete restaurant with one
available and one unavailable item. -/
theorem getById_redaction_witness :
    ("phone" ∉ redactedRestaurantFields ∧ "email" ∉ redactedRestaurantFields)
    ∧ ∃ v, restaurantGetById dbMenu sess1 "r1" = .ok (.redacted v)
        ∧ ∀ c ∈ v.menuCategories, ∀ it ∈ c.menuItems,
            ∃ m, m ∈ dbMenu.menuItems ∧ m.isAvailable = true ∧ it = redactItem m :=
  getById_redacts_for_non_owner dbMenu sess1 _ _ "r1" rest1 rfl rfl
    (by decide) (by decide)

/-- C4: `cancelOrder` on an existing order fails FORBIDDEN when the caller
is not the order's customer, fails BAD_REQUEST when the status is not
PENDING (leaving the database untouched in both cases), and otherwise
cancels the order, recording the supplied reason as the notes text. -/
theorem cancelOrder_pending_only
    (db : Db) (sess : Option Session) (s : Session) (u : User) (oid : String)
    (reason : Option String) (now : Nat) (o : Order)
    (hs : sess = some s) (hu : s.user = some u)
    (ho : db.orders.find? (fun x => x.id == oid) = some o) :
    (o.customerId ≠ u.id → cancelOrder db sess oid reason now = (db, .error .FORBIDDEN))
    ∧ (o.customerId = u.id → o.status ≠ .PENDING →
        cancelOrder db sess oid reason now = (db, .error .BAD_REQUEST))
    ∧ (o.customerId = u.id → o.status = .PENDING →
        ∃ o', (cancelOrder db sess oid reason now).2 = .ok o'
          ∧ o'.status = .CANCELLED
          ∧ o'.notes = some (cancelNotes reason)
          ∧ ∀ rsn, reason = some rsn → rsn ≠ "" →
              o'.notes = some ("Cancelled: " ++ rsn)) := by
  subst hs
  refine ⟨?_, ?_, ?_⟩
  · intro hne
    simp [cancelOrder, authGate, hu, ho, hne]
  · intro heq hst
    simp [cancelOrder, authGate, hu, ho, heq, hst]
  · intro heq hst
    refine ⟨{ o with
                status := .CANCELLED,
                notes := some (cancelNotes reason),
                updatedAt := now }, ?_, rfl, rfl, ?_⟩
    · simp [cancelOrder, authGate, hu, ho, heq, hst]
    · rintro rsn rfl hne
      simp [cancelNotes, hne]

/-- C4 witness: cancelling a concrete pending order with a reason, and the
two failure modes on sibling databases. -/
theorem cancelOrder_witness :
    (cancelOrder dbOrderPending sessOther "o1" (some "too slow") 7 =
      (dbOrderPending, .error .FORBIDDEN))
    ∧ (cancelOrder dbOrderPreparing sess1 "o1" (some "too slow") 7 =
      (dbOrderPreparing, .error .BAD_REQUEST))
    ∧ ∃ o', (cancelOrder dbOrderPending sess1 "o1" (some "too slow") 7).2 = .ok o'
        ∧ o'.status = .CANCELLED
        ∧ o'.notes = some (cancelNotes (some "too slow"))
        ∧ ∀ rsn, (some "too slow" : Option String) = some rsn → rsn ≠ "" →
            o'.notes = some ("Cancelled: " ++ rsn) := by
  refine ⟨?_, ?_, ?_⟩
  · exact (cancelOrder_pending_only dbOrderPending sessOther _ _ "o1" (some "too slow") 7
      orderPending rfl rfl (by decide)).1 (by decide)
  · exact (cancelOrder_pending_only dbOrderPreparing sess1 _ _ "o1" (some "too slow") 7
      orderPreparing rfl rfl (by decide)).2.1 (by decide) (by decide)
  · exact (cancelOrder_pending_only dbOrderPending sess1 _ _ "o1" (some "too slow") 7
      orderPending rfl rfl (by decide)).2.2 (by decide) (by decide)

/-- The inline `validTransitions` conditional of `updateStatus` agrees
pointwise with the transition table the specification writes out. -/
theorem validTransitions_eq_claim_table (a b : OrderStatus) :
    b ∈ validTransitions a ↔ (a, b) ∈ claimTransitionTable := by
  cases a <;> cases b <;> simp [validTransitions, claimTransitionTable]

/-- C3: for an existing order whose restaurant belongs to the calling
owner, `updateStatus` succeeds exactly when (currentStatus, newStatus) is
in the fixed transition table `{PENDING→{PREPARING,CANCELLED},
PREPARING→{READY,CANCELLED}, READY→{COMPLETED,CANCELLED}, COMPLETED→∅,
CANCELLED→∅}`; every other pair fails BAD_REQUEST and leaves the database
(hence the order) unchanged. -/
theorem updateStatus_follows_transition_table
    (db : Db) (sess : Option Session) (s : Session) (u : User) (oid : String)
    (newSt : OrderStatus) (now : Nat) (o : Order) (r : Restaurant)
    (hs : sess = some s) (hu : s.user = some u) (hrole : u.role = some "OWNER")
    (ho : db.orders.find? (fun x => x.id == oid) = some o)
    (hr : db.restaurants.find? (fun x => x.id == o.restaurantId) = some r)
    (hown : r.ownerId = u.id) :
    (isSuccess (updateStatus db sess oid newSt now).2 = true ↔
      (o.status, newSt) ∈ claimTransitionTable)
    ∧ ((o.status, newSt) ∉ claimTransitionTable →
        updateStatus db sess oid newSt now = (db, .error .BAD_REQUEST)) := by
  subst hs
  have hgate : ownerGate (some s) = .ok u := by
    simp [ownerGate, authGate, hu, hrole]
  constructor
  · rw [← validTransitions_eq_claim_table]
    by_cases hc : newSt ∈ validTransitions o.status <;>
      simp [updateStatus, hgate, ho, hr, hown, hc, isSuccess]
  · rw [← validTransitions_eq_claim_table]
    intro hc
    simp [updateStatus, hgate, ho, hr, hown, hc]

/-- C3 witness: on a concrete PENDING order, PREPARING is accepted while
READY is rejected with BAD_REQUEST (and PENDING→READY is indeed outside
the table). -/
theorem updateStatus_table_witness :
    (isSuccess (updateStatus dbOrderPending sessOwner "o1" .PREPARING 3).2 = true ↔
      (OrderStatus.PENDING, OrderStatus.PREPARING) ∈ claimTransitionTable)
    ∧ ((OrderStatus.PENDING, OrderStatus.READY) ∉ claimTransitionTable →
        updateStatus dbOrderPending sessOwner "o1" .READY 3 =
          (dbOrderPending, .error .BAD_REQUEST))
    ∧ (OrderStatus.PENDING, OrderStatus.READY) ∉ claimTransitionTable := by
  refine ⟨?_, ?_, by decide⟩
  · exact (updateStatus_follows_transition_table dbOrderPending sessOwner _ _ "o1"
      .PREPARING 3 orderPending rest1 rfl rfl rfl (by decide) (by decide) (by decide)).1
  · exact (updateStatus_follows_transition_table dbOrderPending sessOwner _ _ "o1"
      .READY 3 orderPending rest1 rfl rfl rfl (by decide) (by decide) (by decide)).2

/-- An item that passes all three checks lets the validation loop move on
to the rest of the cart. -/
theorem checkCartItems_cons_found (db : Db) (rid : String) (c : CartItem)
    (rest : List CartItem) (m : MenuItem)
    (hfind : db.menuItems.find? (fun x => x.id == c.menuItemId) = some m)
    (hav : m.isAvailable = true) (hbelongs : m.restaurantId = rid) :
    checkCartItems db rid (c :: rest) = checkCartItems db rid rest := by
  have hstep : checkCartItems db rid (c :: rest) =
      match db.menuItems.find? (fun x => x.id == c.menuItemId) with
      | none => Except.error ErrorCode.NOT_FOUND
      | some m =>
        if !m.isAvailable then Except.error ErrorCode.BAD_REQUEST
        else if m.restaurantId ≠ rid then Except.error ErrorCode.BAD_REQUEST
        else checkCartItems db rid rest := rfl
  rw [hstep, hfind]
  simp [hav, hbelongs]

/-- The per-item validation loop skips over a prefix of passing items. -/
theorem checkCartItems_append (db : Db) (rid : String) (pre rest : List CartItem)
    (h : ∀ c ∈ pre, itemOk db rid c = true) :
    checkCartItems db rid (pre ++ rest) = checkCartItems db rid rest := by
  induction pre with
  | nil => rfl
  | cons c pre ih =>
    have hc := h c (List.mem_cons_self c pre)
    have hrest : ∀ x ∈ pre, itemOk db rid x = true :=
      fun x hx => h x (List.mem_cons_of_mem _ hx)
    unfold itemOk at hc
    rcases hfind : db.menuItems.find? (fun m => m.id == c.menuItemId) with _ | m
    · rw [hfind] at hc
      simp at hc
    · rw [hfind] at hc
      simp only [Bool.and_eq_true, decide_eq_true_eq] at hc
      rw [List.cons_append,
        checkCartItems_cons_found db rid c (pre ++ rest) m hfind hc.1 hc.2]
      exact ih hrest

/-- If every cart item passes, the validation loop succeeds. -/
theorem checkCartItems_ok (db : Db) (rid : String) (items : List CartItem)
    (h : ∀ c ∈ items, itemOk db rid c = true) :
    checkCartItems db rid items = .ok () := by
  have := checkCartItems_append db rid items [] h
  simpa using this

/-- C6: `placeOrder` fails NOT_FOUND when the restaurant is missing, and
when it is inactive; and at the first cart item that breaks a rule it
fails NOT_FOUND for a missing menu item, BAD_REQUEST for an unavailable
one, and BAD_REQUEST for one belonging to a different restaurant. -/
theorem placeOrder_validation_errors
    (db : Db) (sess : Option Session) (s : Session) (u : User)
    (input : PlaceOrderInput) (oid onum : String) (ids : Nat → String) (now : Nat)
    (hs : sess = some s) (hu : s.user = some u) :
    (db.restaurants.find? (fun r => r.id == input.restaurantId) = none →
      placeOrderCompute db sess input oid onum ids now = .error .NOT_FOUND)
    ∧ (∀ r, db.restaurants.find? (fun r => r.id == input.restaurantId) = some r →
        r.isActive = false →
        placeOrderCompute db sess input oid onum ids now = .error .NOT_FOUND)
    ∧ (∀ r pre c post,
        db.restaurants.find? (fun r => r.id == input.restaurantId) = some r →
        r.isActive = true →
        input.items = pre ++ c :: post →
        (∀ x ∈ pre, itemOk db input.restaurantId x = true) →
        db.menuItems.find? (fun m => m.id == c.menuItemId) = none →
        placeOrderCompute db sess input oid onum ids now = .error .NOT_FOUND)
    ∧ (∀ r pre c post m,
        db.restaurants.find? (fun r => r.id == input.restaurantId) = some r →
        r.isActive = true →
        input.items = pre ++ c :: post →
        (∀ x ∈ pre, itemOk db input.restaurantId x = true) →
        db.menuItems.find? (fun m => m.id == c.menuItemId) = some m →
        m.isAvailable = false →
        placeOrderCompute db sess input oid onum ids now = .error .BAD_REQUEST)
    ∧ (∀ r pre c post m,
        db.restaurants.find? (fun r => r.id == input.restaurantId) = some r →
        r.isActive = true →
        input.items = pre ++ c :: post →
        (∀ x ∈ pre, itemOk db input.restaurantId x = true) →
        db.menuItems.find? (fun m => m.id == c.menuItemId) = some m →
        m.isAvailable = true →
        m.restaurantId ≠ input.restaurantId →
        placeOrderCompute db sess input oid onum ids now = .error .BAD_REQUEST) := by
  subst hs
  refine ⟨?_, ?_, ?_, ?_, ?_⟩
  · intro hnone
    simp [placeOrderCompute, authGate, hu, hnone]
  · intro r hr hact
    simp [placeOrderCompute, authGate, hu, hr, hact]
  · intro r pre c post hr hact hitems hpre hfind
    have hchk : checkCartItems db input.restaurantId input.items = .error .NOT_FOUND := by
      rw [hitems, checkCartItems_append db _ pre _ hpre]
      unfold checkCartItems
      rw [hfind]
    simp [placeOrderCompute, authGate, hu, hr, hact, hchk]
  · intro r pre c post m hr hact hitems hpre hfind hun
    have hchk : checkCartItems db input.restaurantId input.items = .error .BAD_REQUEST := by
      rw [hitems, checkCartItems_append db _ pre _ hpre]
      unfold checkCartItems
      rw [hfind]
      simp [hun]
    simp [placeOrderCompute, authGate, hu, hr, hact, hchk]
  · intro r pre c post m hr hact hitems hpre hfind hav hwrong
    have hchk : checkCartItems db input.restaurantId input.items = .error .BAD_REQUEST := by
      rw [hitems, checkCartItems_append db _ pre _ hpre]
      unfold checkCartItems
      rw [hfind]
      simp [hav, hwrong]
    simp [placeOrderCompute, authGate, hu, hr, hact, hchk]

/-- C6 witness: concrete carts hitting each failure mode — missing
restaurant, inactive restaurant, missing item, unavailable item, and a
foreign restaurant's item. -/
theorem placeOrder_validation_witness :
    (placeOrderCompute dbValidation sess1
        { input1 with restaurantId := "ghost" } "o" "n" (fun _ => "i") 0 =
      .error .NOT_FOUND)
    ∧ (placeOrderCompute dbInactive sess1 input1 "o" "n" (fun _ => "i") 0 =
      .error .NOT_FOUND)
    ∧ (placeOrderCompute dbValidation sess1
        { input1 with items := [{ menuItemId := "nope", quantity := 1,
                                  specialInstructions := none }] } "o" "n" (fun _ => "i") 0 =
      .error .NOT_FOUND)
    ∧ (placeOrderCompute dbValidation sess1
        { input1 with items := [{ menuItemId := "m86", quantity := 1,
                                  specialInstructions := none }] } "o" "n" (fun _ => "i") 0 =
      .error .BAD_REQUEST)
    ∧ (placeOrderCompute dbValidation sess1
        { input1 with items := [{ menuItemId := "mfar", quantity := 1,
                                  specialInstructions := none }] } "o" "n" (fun _ => "i") 0 =
      .error .BAD_REQUEST) := by
  refine ⟨?_, ?_, ?_, ?_, ?_⟩
  · exact (placeOrder_validation_errors dbValidation sess1 _ _
      { input1 with restaurantId := "ghost" } "o" "n" (fun _ => "i") 0 rfl rfl).1
      (by decide)
  · exact (placeOrder_validation_errors dbInactive sess1 _ _ input1
      "o" "n" (fun _ => "i") 0 rfl rfl).2.1 restInactive (by decide) (by decide)
  · exact (placeOrder_validation_errors dbValidation sess1 _ _
      { input1 with items := [{ menuItemId := "nope", quantity := 1,
                                specialInstructions := none }] }
      "o" "n" (fun _ => "i") 0 rfl rfl).2.2.1 rest1 []
      { menuItemId := "nope", quantity := 1, specialInstructions := none } []
      (by decide) (by decide) rfl (by intro x hx; cases hx) (by decide)
  · exact (placeOrder_validation_errors dbValidation sess1 _ _
      { input1 with items := [{ menuItemId := "m86", quantity := 1,
                                specialInstructions := none }] }
      "o" "n" (fun _ => "i") 0 rfl rfl).2.2.2.1 rest1 []
      { menuItemId := "m86", quantity := 1, specialInstructions := none } [] item86
      (by decide) (by decide) rfl (by intro x hx; cases hx) (by decide) (by decide)
  · exact (placeOrder_validation_errors dbValidation sess1 _ _
      { input1 with items := [{ menuItemId := "mfar", quantity := 1,
                                specialInstructions := none }] }
      "o" "n" (fun _ => "i") 0 rfl rfl).2.2.2.2 rest1 []
      { menuItemId := "mfar", quantity := 1, specialInstructions := none } [] itemFar
      (by decide) (by decide) rfl (by intro x hx; cases hx) (by decide) (by decide)
      (by decide)

/-- C1: the persistence of `placeOrder` is not atomic.  On a valid
one-item order whose item insert fails (the header insert having
succeeded), the call reports INTERNAL_SERVER_ERROR but the order header
row stays committed with no item rows — a state the claim says must be
unreachable.  The code's own `// Start transaction` comment notwithstanding,
the two inserts are independent statements with no enclosing transaction
and no rollback. -/
theorem placeOrder_not_atomic_on_item_insert_failure :
    (placeOrder db1 sess1 input1 "ord1" "ORD-1" (fun _ => "it1") 0 (some 1)).2 =
      .error .INTERNAL_SERVER_ERROR
    ∧ ((placeOrder db1 sess1 input1 "ord1" "ORD-1" (fun _ => "it1") 0 (some 1)).1.orders.map
        (fun o => o.id)) = ["ord1"]
    ∧ (placeOrder db1 sess1 input1 "ord1" "ORD-1" (fun _ => "it1") 0 (some 1)).1.orderItems
        = [] := by
  decide

/-- C5: a persisted order whose header `totalAmount` does not equal the
exact sum of its item rows' `totalPrice` values: three items of price 0.10
(quantity 1).  Each row's `totalPrice` is the binary64 double nearest 0.1;
their exact sum keeps all bits, while the header total re-rounds each
partial sum, so the two differ (0.30000000000000004… vs 0.30000000000000002…). -/
theorem placeOrder_header_total_vs_item_sum :
    orderTotalOf (placeOrderCompute db5 sess1 input3 "ord1" "ORD-1" (fun _ => "it") 0)
      = some t3
    ∧ lineTotalsOf (placeOrderCompute db5 sess1 input3 "ord1" "ORD-1" (fun _ => "it") 0)
      = some [d10, d10, d10]
    ∧ t3 ≠ [d10, d10, d10].sum := by
  refine ⟨by decide, by decide, ?_⟩
  have hsum : [d10, d10, d10].sum = d10 + d10 + d10 := by
    simp [List.sum_cons]
    ring
  rw [hsum]
  unfold t3 d10
  rw [Rat.mkRat_eq_div, Rat.mkRat_eq_div]
  norm_num

/-- A successful `computeLines` run accumulates exactly the left fold of
the per-item step over the cart. -/
theorem computeLines_total (db : Db) (ids : Nat → String) :
    ∀ (items : List CartItem) (i : Nat) (acc : ℚ),
      (∀ c ∈ items, (db.menuItems.find? (fun m => m.id == c.menuItemId)).isSome) →
      totalOf (computeLines db ids items i acc) =
        some (List.foldl (itemStep db) acc items) := by
  intro items
  induction items with
  | nil => intro i acc _; rfl
  | cons c rest ih =>
    intro i acc h
    rcases Option.isSome_iff_exists.1 (h c (List.mem_cons_self c rest)) with ⟨m, hm⟩
    have hrest : ∀ x ∈ rest, (db.menuItems.find? (fun y => y.id == x.menuItemId)).isSome :=
      fun x hx => h x (List.mem_cons_of_mem _ hx)
    have hih := ih (i + 1) (fadd acc (fmul (f64round m.price) c.quantity)) hrest
    have hstep2 : itemStep db acc c = fadd acc (fmul (f64round m.price) c.quantity) := by
      unfold itemStep
      rw [hm]
    rcases hres : computeLines db ids rest (i + 1)
        (fadd acc (fmul (f64round m.price) c.quantity)) with e | p
    · rw [hres] at hih
      exact absurd hih (by simp [totalOf])
    · rw [hres] at hih
      unfold computeLines
      rw [hm]
      simp only [hres]
      rw [List.foldl_cons, hstep2]
      simpa [totalOf] using hih

/-- When the gate, the restaurant check and the item validation all pass,
the `totalAmount` of the order `placeOrder` builds is exactly the total
`computeLines` accumulates. -/
theorem placeOrderCompute_total (db : Db) (sess : Option Session) (s : Session) (u : User)
    (input : PlaceOrderInput) (oid onum : String) (ids : Nat → String) (now : Nat)
    (r : Restaurant)
    (hs : sess = some s) (hu : s.user = some u)
    (hr : db.restaurants.find? (fun x => x.id == input.restaurantId) = some r)
    (hact : r.isActive = true)
    (hchk : checkCartItems db input.restaurantId input.items = .ok ()) :
    orderTotalOf (placeOrderCompute db sess input oid onum ids now) =
      totalOf (computeLines db ids input.items 0 0) := by
  subst hs
  rcases hres : computeLines db ids input.items 0 0 with e | p
  · simp [placeOrderCompute, authGate, hu, hr, hact, hchk, hres, orderTotalOf, totalOf]
  · simp [placeOrderCompute, authGate, hu, hr, hact, hchk, hres, orderTotalOf, totalOf]

/-- On the 0.01 cart database, one accumulation step of `placeOrder` is
one binary64 addition of the constant line total. -/
theorem itemStep_centCart (acc : ℚ) : itemStep db2 acc centCart = fadd acc centLine := by
  unfold itemStep
  have hfind : db2.menuItems.find? (fun m => m.id == centCart.menuItemId) = some centItem := by
    decide
  rw [hfind]
  show fadd acc (fmul (f64round centItem.price) centCart.quantity) = fadd acc centLine
  have hline : fmul (f64round centItem.price) centCart.quantity = centLine := by
    decide
  rw [hline]

/-- The cart fold simplifies to iterated binary64 addition of `centLine`. -/
theorem fold_centStep (v : ℚ) (n : Nat) :
    List.foldl (itemStep db2) v (List.replicate n centCart) =
      List.foldl (fun acc (_ : CartItem) => fadd acc centLine) v (List.replicate n centCart) :=
  List.foldl_ext _ _ v (fun acc x hx => by
    rw [List.eq_of_mem_replicate hx]
    exact itemStep_centCart acc)

/-- Partial binary64 sum of the 0.01 cart after 100 items. -/
theorem centChunk0 :
    List.foldl (fun acc (_ : CartItem) => fadd acc centLine) (0 : ℚ)
      (List.replicate 100 centCart) = u1 := by
  have hn : (List.foldl (fun acc (_ : CartItem) => fadd acc centLine) (0 : ℚ)
      (List.replicate 100 centCart)).num = 4503599627370499 := by
    decide
  have hd : (List.foldl (fun acc (_ : CartItem) => fadd acc centLine) (0 : ℚ)
      (List.replicate 100 centCart)).den = 4503599627370496 := by
    decide
  apply Rat.ext
  · rw [hn]
    decide
  · rw [hd]
    decide

/-- Partial binary64 sum of the 0.01 cart after 200 items. -/
theorem centChunk1 :
    List.foldl (fun acc (_ : CartItem) => fadd acc centLine) u1
      (List.replicate 100 centCart) = u2 := by
  have hn : (List.foldl (fun acc (_ : CartItem) => fadd acc centLine) u1
      (List.replicate 100 centCart)).num = 4503599627370499 := by
    decide
  have hd : (List.foldl (fun acc (_ : CartItem) => fadd acc centLine) u1
      (List.replicate 100 centCart)).den = 2251799813685248 := by
    decide
  apply Rat.ext
  · rw [hn]
    decide
  · rw [hd]
    decide

/-- Partial binary64 sum of the 0.01 cart after 300 items. -/
theorem centChunk2 :
    List.foldl (fun acc (_ : CartItem) => fadd acc centLine) u2
      (List.replicate 100 centCart) = u3 := by
  have hn : (List.foldl (fun acc (_ : CartItem) => fadd acc centLine) u2
      (List.replicate 100 centCart)).num = 6755399441055699 := by
    decide
  have hd : (List.foldl (fun acc (_ : CartItem) => fadd acc centLine) u2
      (List.replicate 100 centCart)).den = 2251799813685248 := by
    decide
  apply Rat.ext
  · rw [hn]
    decide
  · rw [hd]
    decide

/-- Partial binary64 sum of the 0.01 cart after 400 items. -/
theorem centChunk3 :
    List.foldl (fun acc (_ : CartItem) => fadd acc centLine) u3
      (List.replicate 100 centCart) = u4 := by
  have hn : (List.foldl (fun acc (_ : CartItem) => fadd acc centLine) u3
      (List.replicate 100 centCart)).num = 9007199254740899 := by
    decide
  have hd : (List.foldl (fun acc (_ : CartItem) => fadd acc centLine) u3
      (List.replicate 100 centCart)).den = 2251799813685248 := by
    decide
  apply Rat.ext
  · rw [hn]
    decide
  · rw [hd]
    decide

/-- Partial binary64 sum of the 0.01 cart after 500 items. -/
theorem centChunk4 :
    List.foldl (fun acc (_ : CartItem) => fadd acc centLine) u4
      (List.replicate 100 centCart) = u5 := by
  have hn : (List.foldl (fun acc (_ : CartItem) => fadd acc centLine) u4
      (List.replicate 100 centCart)).num = 2814749767106525 := by
    decide
  have hd : (List.foldl (fun acc (_ : CartItem) => fadd acc centLine) u4
      (List.replicate 100 centCart)).den = 562949953421312 := by
    decide
  apply Rat.ext
  · rw [hn]
    decide
  · rw [hd]
    decide

/-- Partial binary64 sum of the 0.01 cart after 600 items. -/
theorem centChunk5 :
    List.foldl (fun acc (_ : CartItem) => fadd acc centLine) u5
      (List.replicate 100 centCart) = u6 := by
  have hn : (List.foldl (fun acc (_ : CartItem) => fadd acc centLine) u5
      (List.replicate 100 centCart)).num = 3377699720527825 := by
    decide
  have hd : (List.foldl (fun acc (_ : CartItem) => fadd acc centLine) u5
      (List.replicate 100 centCart)).den = 562949953421312 := by
    decide
  apply Rat.ext
  · rw [hn]
    decide
  · rw [hd]
    decide

/-- Partial binary64 sum of the 0.01 cart after 700 items. -/
theorem centChunk6 :
    List.foldl (fun acc (_ : CartItem) => fadd acc centLine) u6
      (List.replicate 100 centCart) = u7 := by
  have hn : (List.foldl (fun acc (_ : CartItem) => fadd acc centLine) u6
      (List.replicate 100 centCart)).num = 3940649673949125 := by
    decide
  have hd : (List.foldl (fun acc (_ : CartItem) => fadd acc centLine) u6
      (List.replicate 100 centCart)).den = 562949953421312 := by
    decide
  apply Rat.ext
  · rw [hn]
    decide
  · rw [hd]
    decide

/-- Partial binary64 sum of the 0.01 cart after 800 items. -/
theorem centChunk7 :
    List.foldl (fun acc (_ : CartItem) => fadd acc centLine) u7
      (List.replicate 100 centCart) = u8 := by
  have hn : (List.foldl (fun acc (_ : CartItem) => fadd acc centLine) u7
      (List.replicate 100 centCart)).num = 4503599627370425 := by
    decide
  have hd : (List.foldl (fun acc (_ : CartItem) => fadd acc centLine) u7
      (List.replicate 100 centCart)).den = 562949953421312 := by
    decide
  apply Rat.ext
  · rw [hn]
    decide
  · rw [hd]
    decide

/-- Partial binary64 sum of the 0.01 cart after 900 items. -/
theorem centChunk8 :
    List.foldl (fun acc (_ : CartItem) => fadd acc centLine) u8
      (List.replicate 100 centCart) = u9 := by
  have hn : (List.foldl (fun acc (_ : CartItem) => fadd acc centLine) u8
      (List.replicate 100 centCart)).num = 5066549580791725 := by
    decide
  have hd : (List.foldl (fun acc (_ : CartItem) => fadd acc centLine) u8
      (List.replicate 100 centCart)).den = 562949953421312 := by
    decide
  apply Rat.ext
  · rw [hn]
    decide
  · rw [hd]
    decide

/-- Partial binary64 sum of the 0.01 cart after 1000 items. -/
theorem centChunk9 :
    List.foldl (fun acc (_ : CartItem) => fadd acc centLine) u9
      (List.replicate 100 centCart) = v10 := by
  have hn : (List.foldl (fun acc (_ : CartItem) => fadd acc centLine) u9
      (List.replicate 100 centCart)).num = 5629499534213025 := by
    decide
  have hd : (List.foldl (fun acc (_ : CartItem) => fadd acc centLine) u9
      (List.replicate 100 centCart)).den = 562949953421312 := by
    decide
  apply Rat.ext
  · rw [hn]
    decide
  · rw [hd]
    decide

/-- The full 1000-step binary64 accumulation of the 0.01 cart. -/
theorem centFold1000 :
    List.foldl (itemStep db2) 0 (List.replicate 1000 centCart) = v10 := by
  rw [fold_centStep]
  rw [show (1000 : Nat) = 100 + 900 from rfl, List.replicate_add, List.foldl_append,
    centChunk0]
  rw [show (900 : Nat) = 100 + 800 from rfl, List.replicate_add, List.foldl_append,
    centChunk1]
  rw [show (800 : Nat) = 100 + 700 from rfl, List.replicate_add, List.foldl_append,
    centChunk2]
  rw [show (700 : Nat) = 100 + 600 from rfl, List.replicate_add, List.foldl_append,
    centChunk3]
  rw [show (600 : Nat) = 100 + 500 from rfl, List.replicate_add, List.foldl_append,
    centChunk4]
  rw [show (500 : Nat) = 100 + 400 from rfl, List.replicate_add, List.foldl_append,
    centChunk5]
  rw [show (400 : Nat) = 100 + 300 from rfl, List.replicate_add, List.foldl_append,
    centChunk6]
  rw [show (300 : Nat) = 100 + 200 from rfl, List.replicate_add, List.foldl_append,
    centChunk7]
  rw [show (200 : Nat) = 100 + 100 from rfl, List.replicate_add, List.foldl_append,
    centChunk8]
  exact centChunk9

/-- C2: on the spec's own example — 1000 cart items of an item priced
0.01, quantity 1 each — `placeOrder` computes `totalAmount` with binary64
(JS number) arithmetic and arrives at 5629499534213025/562949953421312 =
9.99999999999983…, not the exact decimal sum 10.00: the accumulation
drifts, because the implementation converts the decimal prices to binary
floating point instead of using decimal arithmetic. -/
theorem placeOrder_binary64_total_drift :
    orderTotalOf (placeOrderCompute db2 sess1 input1000 "ord1" "ORD-1" (fun _ => "it") 0)
      = some v10
    ∧ v10 ≠ 10
    ∧ (1000 : ℚ) * mkRat 1 100 = 10 := by
  refine ⟨?_, by decide, by rw [Rat.mkRat_eq_div]; norm_num⟩
  have hok : ∀ c ∈ input1000.items, itemOk db2 input1000.restaurantId c = true := by
    intro c hc
    have : c = centCart := List.eq_of_mem_replicate hc
    rw [this]
    decide
  have hfound : ∀ c ∈ input1000.items,
      (db2.menuItems.find? (fun m => m.id == c.menuItemId)).isSome := by
    intro c hc
    have : c = centCart := List.eq_of_mem_replicate hc
    rw [this]
    decide
  rw [placeOrderCompute_total db2 sess1 _ _ input1000 "ord1" "ORD-1" (fun _ => "it") 0
    rest1 rfl rfl (by decide) (by decide)
    (checkCartItems_ok db2 input1000.restaurantId input1000.items hok)]
  rw [computeLines_total db2 (fun _ => "it") input1000.items 0 0 hfound]
  rw [show input1000.items = List.replicate 1000 centCart from rfl, centFold1000]

end CafeApp
